import Mathlib

/-!
Verification development for the TinyUSB host-side USB-MIDI class driver
(`src/class/midi/midi_host.c`).  The repository holds two partially
reconciled variants of the driver in one translation unit: a stream-buffer
variant (the first copy, with `tu_edpt_stream_t` per endpoint) and a
cable-table variant (the second copy, with a `midi_vcable_t` table per
direction).  Both are embedded below, the cable variant under `CableDrv`
and the stream variant under `StreamDrv`.

Modelling conventions:
- C arrays paired with a count field (`ep_in`/`ep_in_c`, `cable_in`/
  `cable_in_count`) are modelled as a single list whose length is the
  count; this is faithful for every state reachable from the zero-filled
  initial state, because the code only ever writes the slot at the count
  and increments the count together.
- Machine integers are `Nat`; all values involved are 8/16-bit quantities
  and no arithmetic in the modelled code can overflow.
- Undefined behaviour (dereferencing a NULL pointer, reading or writing
  outside a static array such as `_midih_itf[-1]`) is modelled as the
  `none` outcome of an `Option`-valued operation.  A defined, normal
  return is `some`.
- Descriptor chains are modelled at descriptor-block granularity as
  `List Desc`; the byte-level walking helpers `tu_desc_next`,
  `tu_desc_find` and `tu_desc_find2` are external collaborators of this
  driver (they live in the wider TinyUSB tree, not in this excerpt) and
  are modelled by their effect on the block list.  Reinterpreting a block
  of the wrong kind through a descriptor-struct cast is left unmodelled
  and also yields `none`.
- External transport calls (`tuh_edpt_open`, `usbh_driver_set_config_complete`,
  `tu_edpt_stream_init`) succeed and are otherwise uninterpreted; the
  application callbacks `tuh_midi_mount_cb` / `tuh_midi_umount_cb` are
  recorded as event lists.
-/

namespace MidiHost

/-- `TUSB_CLASS_AUDIO` (tusb_types). -/
def TUSB_CLASS_AUDIO : Nat := 1
/-- `AUDIO_SUBCLASS_CONTROL`. -/
def AUDIO_SUBCLASS_CONTROL : Nat := 1
/-- `AUDIO_SUBCLASS_MIDI_STREAMING`. -/
def AUDIO_SUBCLASS_MIDI_STREAMING : Nat := 3
/-- `TUSB_DESC_INTERFACE` descriptor type byte. -/
def TUSB_DESC_INTERFACE : Nat := 4
/-- `TUSB_DESC_ENDPOINT` descriptor type byte. -/
def TUSB_DESC_ENDPOINT : Nat := 5
/-- `TUSB_DESC_CS_INTERFACE` descriptor type byte. -/
def TUSB_DESC_CS_INTERFACE : Nat := 0x24
/-- `TUSB_DESC_CS_ENDPOINT` descriptor type byte. -/
def TUSB_DESC_CS_ENDPOINT : Nat := 0x25
/-- `USB_MIDI_SPEC_VERSION_1 = 1` (midi_host.h). -/
def USB_MIDI_SPEC_VERSION_1 : Nat := 1
/-- `USB_MIDI_SPEC_VERSION_2 = 2` (midi_host.h). -/
def USB_MIDI_SPEC_VERSION_2 : Nat := 2
/-- `TUSB_DIR_OUT = 0`. -/
def TUSB_DIR_OUT : Nat := 0
/-- `TUSB_DIR_IN = 1`. -/
def TUSB_DIR_IN : Nat := 1

/-- `tu_edpt_dir(addr)`: bit 7 of the endpoint address selects the
direction (`0x80` set = IN). Addresses are 8-bit values. -/
def tu_edpt_dir (addr : Nat) : Nat :=
  if (addr / 128) % 2 = 1 then TUSB_DIR_IN else TUSB_DIR_OUT

/-- Compile-time configuration macros of the driver.  `CFG_TUH_MIDI`
itself (the registry capacity) is the length of the registry list. -/
structure Cfg where
  CFG_TUH_ENDPOINT_MAX : Nat
  CFG_TUH_MIDI_CABLES : Nat
  CFG_TUH_DEVICE_ITF_MAX : Nat
  CFG_TUH_DEVICE_MAX : Nat
deriving Repr, DecidableEq

/-- One USB configuration-descriptor block, at block granularity.  Only
the fields the driver reads are carried:
`interface`  = `tusb_desc_interface_t` (bInterfaceNumber, bNumEndpoints,
bInterfaceClass, bInterfaceSubClass);
`csHeader`   = `midi_desc_header_t` (bcdMSC);
`endpoint`   = `tusb_desc_endpoint_t` (bEndpointAddress);
`csEndpoint` = `midi_desc_endpoint_t` (baAssocJackID, with
bNumEmbMIDIJack the list length). -/
inductive Desc where
  | interface (bInterfaceNumber bNumEndpoints bInterfaceClass bInterfaceSubClass : Nat)
  | csHeader (bcdMSC : Nat)
  | endpoint (bEndpointAddress : Nat)
  | csEndpoint (baAssocJackID : List Nat)
deriving Repr, DecidableEq

/-- `tu_desc_type(desc)`: the bDescriptorType byte of a block. -/
def tu_desc_type : Desc → Nat
  | .interface _ _ _ _ => TUSB_DESC_INTERFACE
  | .csHeader _ => TUSB_DESC_CS_INTERFACE
  | .endpoint _ => TUSB_DESC_ENDPOINT
  | .csEndpoint _ => TUSB_DESC_CS_ENDPOINT

/-- `tu_desc_find(desc, end, type)` (external helper): advance to the
first block of the given descriptor type; an empty result models the
NULL / past-the-end outcome. -/
def tu_desc_find : List Desc → Nat → List Desc
  | [], _ => []
  | d :: rest, t => if tu_desc_type d = t then d :: rest else tu_desc_find rest t

/-- `tu_desc_find2(desc, end, class, subclass)` (external helper) as used
by `midih_open`: advance to the first interface descriptor with the given
class and subclass. -/
def tu_desc_find_itf : List Desc → Nat → Nat → List Desc
  | [], _, _ => []
  | d :: rest, c, sc =>
    match d with
    | .interface _ _ c2 sc2 =>
      if c2 = c ∧ sc2 = sc then d :: rest else tu_desc_find_itf rest c sc
    | _ => tu_desc_find_itf rest c sc

/-- `tuh_midi_spec_version_supported`, with the default configuration of
midi_host.h (`CFG_TUH_MIDI_SPEC_1_0 = CFG_TUH_MIDI_SPEC_2_0 = 1`, so both
`MIDI_SPEC_1_0` and `MIDI_SPEC_2_0` are compiled in). -/
def tuh_midi_spec_version_supported (spec : Nat) : Bool :=
  spec == USB_MIDI_SPEC_VERSION_1 || spec == USB_MIDI_SPEC_VERSION_2

/-!
## Cable-table variant (second copy of midi_host.c)

The copy of the driver whose per-interface V1 state is a virtual-cable
table (`midih_io_m10_t`): a `(jack_id, endpoint_id)` pair per embedded
jack, per direction.
-/

namespace CableDrv

/-- `midi_vcable_t`: an embedded jack, stored as its 8-bit jack ID and
the address of the MIDI-streaming endpoint carrying it. -/
structure midi_vcable_t where
  jack_id : Nat
  endpoint_id : Nat
deriving Repr, DecidableEq

/-- `midih_io_m10_t`: the V1 arm of the per-version union. The list
lengths are `cable_in_count` / `cable_out_count`; capacity
`CFG_TUH_MIDI_CABLES` per direction. -/
structure midih_io_m10_t where
  cable_in : List midi_vcable_t
  cable_out : List midi_vcable_t
deriving Repr, DecidableEq

/-- `midih_interface_t` of the cable variant. `ep_in` / `ep_out` are the
endpoint-address arrays with counts `ep_in_c` / `ep_out_c` (capacity
`CFG_TUH_ENDPOINT_MAX`); the lists' lengths are the counts. -/
structure midih_interface_t where
  dev_num : Nat
  itf_num : Nat
  midi_spec : Nat
  ep_in : List Nat
  ep_out : List Nat
  configured : Bool
  mounted : Bool
  io : midih_io_m10_t
deriving Repr, DecidableEq

/-- A zero-filled interface record (`tu_memclr`): the free-slot state. -/
def freeItf : midih_interface_t :=
  { dev_num := 0, itf_num := 0, midi_spec := 0, ep_in := [], ep_out := []
    configured := false, mounted := false, io := { cable_in := [], cable_out := [] } }

/-- The global registry `_midih_itf[CFG_TUH_MIDI]`; the list length is
the capacity `CFG_TUH_MIDI`. -/
abbrev Registry := List midih_interface_t

/-- `get_itf(index)`: `&_midih_itf[index - 1]`, an unchecked array access
at slot `index - 1`.  For `index = 0` (the not-found sentinel) or
`index > CFG_TUH_MIDI` the access is outside `_midih_itf` (the source
carries a `FIXME potential nul reference` at this function): `none`. -/
def get_itf (R : Registry) (index : Nat) : Option midih_interface_t :=
  if h : 1 ≤ index ∧ index ≤ R.length then some (R.get ⟨index - 1, by omega⟩)
  else none

/-- `get_index(dev_addr, itf_num)`: 1-based slot of the first record
matching the pair, 0 when none matches. -/
def get_index : Registry → Nat → Nat → Nat
  | [], _, _ => 0
  | r :: rs, dev, itf =>
    if r.dev_num = dev ∧ r.itf_num = itf then 1
    else match get_index rs dev itf with
      | 0 => 0
      | k + 1 => k + 2

/-- The scan loop of `make_new_itf`: claim the first slot whose
`dev_num` is 0, setting `dev_num` and `itf_num` there.  Note the
received `spec_version` is never stored into `midi_spec`. -/
def make_new_itf_scan (dev itf : Nat) : Registry → Option (Registry × Nat)
  | [] => none
  | r :: rs =>
    if r.dev_num = 0 then some ({ r with dev_num := dev, itf_num := itf } :: rs, 1)
    else (make_new_itf_scan dev itf rs).map (fun p => (r :: p.1, p.2 + 1))

/-- `make_new_itf(dev_addr, itf_num, spec_version)`: `none` models the
NULL return (unsupported version, or no free slot). -/
def make_new_itf (R : Registry) (dev itf spec_version : Nat) : Option (Registry × Nat) :=
  if tuh_midi_spec_version_supported spec_version then make_new_itf_scan dev itf R
  else none

/-- The `for(j = 0; j < ep_cs->bNumEmbMIDIJack; j++)` loop of
`config_process_spec_v1_interface`: append one cable per embedded jack
ID, each guarded by `cable_count < CFG_TUH_MIDI_CABLES`. -/
def push_cables (cap addr : Nat) : List midi_vcable_t → List Nat → List midi_vcable_t
  | cs, [] => cs
  | cs, j :: js =>
    push_cables cap addr (if cs.length < cap then cs ++ [⟨j, addr⟩] else cs) js

/-- One endpoint descriptor's effect on the record in
`config_process_spec_v1_interface`: classify the direction, append the
address to the per-direction endpoint list if it is not full, and in
that case register the embedded jacks as cables. -/
def process_endpoint (cfg : Cfg) (r : midih_interface_t) (addr : Nat)
    (jacks : List Nat) : midih_interface_t :=
  if tu_edpt_dir addr = TUSB_DIR_IN then
    if r.ep_in.length < cfg.CFG_TUH_ENDPOINT_MAX then
      { r with ep_in := r.ep_in ++ [addr]
               io := { r.io with
                       cable_in := push_cables cfg.CFG_TUH_MIDI_CABLES addr r.io.cable_in jacks } }
    else r
  else
    if r.ep_out.length < cfg.CFG_TUH_ENDPOINT_MAX then
      { r with ep_out := r.ep_out ++ [addr]
               io := { r.io with
                       cable_out := push_cables cfg.CFG_TUH_MIDI_CABLES addr r.io.cable_out jacks } }
    else r

/-- The `for(i = 0; i < desc_itf->bNumEndpoints; i++)` loop of
`config_process_spec_v1_interface` (cable variant).  Each iteration
checks `TU_VERIFY(tu_desc_type(desc) == TUSB_DESC_ENDPOINT)` (clean
`false` on mismatch), dereferences `itf` (`itf->dev_num` inside
`TU_ASSERT(tuh_edpt_open(...))`; `none` when `make_new_itf` returned
NULL), advances `desc` once onto the class-specific endpoint block, and
records endpoint and cables.  `desc` is NOT advanced past the
class-specific block before the next iteration. -/
def config_loop (cfg : Cfg) :
    Registry → Option Nat → Nat → List Desc → Option (Bool × Registry)
  | R, _, 0, _ => some (true, R)
  | R, slot, n + 1, chain =>
    match chain with
    | [] => none
    | d :: rest =>
      match d with
      | Desc.endpoint addr =>
        match slot with
        | none => none
        | some s =>
          match rest with
          | [] => none
          | Desc.csEndpoint jacks :: _ =>
            match get_itf R s with
            | none => none
            | some r =>
              config_loop cfg (R.set (s - 1) (process_endpoint cfg r addr jacks)) (some s) n rest
          | _ :: _ => none
      | _ => some (false, R)

/-- `config_process_spec_v1_interface(itf, desc_itf, max_len)` (cable
variant): skip the interface and class-specific header blocks, seek the
first endpoint descriptor, then run the endpoint loop.  `numEps` is
`desc_itf->bNumEndpoints`; `slot` the record claimed by `make_new_itf`
(`none` = NULL). -/
def config_process_spec_v1_interface (cfg : Cfg) (R : Registry) (slot : Option Nat)
    (numEps : Nat) (chain : List Desc) : Option (Bool × Registry) :=
  config_loop cfg R slot numEps (tu_desc_find (chain.drop 2) TUSB_DESC_ENDPOINT)

/-- The tail of `midih_open` once the spec version has been decoded from
`bcdMSC`: check support, allocate a record, dispatch on the version
(`config_process_spec_v2_interface` is a stub returning true). -/
def open_core (cfg : Cfg) (R : Registry) (dev itfNum numEps v : Nat)
    (chain2 : List Desc) : Option (Bool × Registry) :=
  if tuh_midi_spec_version_supported v then
    match make_new_itf R dev itfNum v with
    | some (R2, s) =>
      if v = USB_MIDI_SPEC_VERSION_1 then
        config_process_spec_v1_interface cfg R2 (some s) numEps chain2
      else if v = USB_MIDI_SPEC_VERSION_2 then some (true, R2)
      else some (false, R2)
    | none =>
      if v = USB_MIDI_SPEC_VERSION_1 then
        config_process_spec_v1_interface cfg R none numEps chain2
      else if v = USB_MIDI_SPEC_VERSION_2 then some (true, R)
      else some (false, R)
  else some (false, R)

/-- `midih_open(rhport, dev_addr, desc_itf, max_len)` (cable variant).
The chain starts at `desc_itf`; an Audio-Control interface redirects via
`tu_desc_find2` to the nested MIDI-Streaming interface.  The supplied
chain is the addressable descriptor window (`max_len`). -/
def midih_open (cfg : Cfg) (R : Registry) (dev : Nat) (chain : List Desc) :
    Option (Bool × Registry) :=
  match chain with
  | Desc.interface _ _ cls sub :: _ =>
    if cls = TUSB_CLASS_AUDIO then
      match (if sub = AUDIO_SUBCLASS_CONTROL then
               tu_desc_find_itf chain TUSB_CLASS_AUDIO AUDIO_SUBCLASS_MIDI_STREAMING
             else chain) with
      | Desc.interface itfNum2 numEps2 cls2 sub2 :: rest2 =>
        if cls2 = TUSB_CLASS_AUDIO then
          if sub2 = AUDIO_SUBCLASS_MIDI_STREAMING then
            match rest2 with
            | Desc.csHeader bcd :: _ =>
              if bcd = 0x0100 then
                open_core cfg R dev itfNum2 numEps2 USB_MIDI_SPEC_VERSION_1
                  (Desc.interface itfNum2 numEps2 cls2 sub2 :: rest2)
              else if bcd = 0x0200 then
                open_core cfg R dev itfNum2 numEps2 USB_MIDI_SPEC_VERSION_2
                  (Desc.interface itfNum2 numEps2 cls2 sub2 :: rest2)
              else some (false, R)
            | _ => none
          else some (false, R)
        else some (false, R)
      | _ => none
    else some (false, R)
  | _ => none

/-- `tuh_midi_mounted(dev_addr, itf_num)` (cable variant): reads
`get_itf(get_index(dev_addr, itf_num))->mounted`; out-of-registry access
when the pair is absent. -/
def tuh_midi_mounted (R : Registry) (dev itf : Nat) : Option Bool :=
  (get_itf R (get_index R dev itf)).map (fun r => r.mounted)

/-- `tuh_midi_spec_version(dev_addr, itf_num)` (cable variant). -/
def tuh_midi_spec_version (R : Registry) (dev itf : Nat) : Option Nat :=
  (get_itf R (get_index R dev itf)).map (fun r => r.midi_spec)

/-- `get_in_cable(dev_addr, itf_num, index)`: `some none` models the
NULL pointer `TU_VERIFY(index < cable_in_count)` yields on an
out-of-range index; outer `none` models the out-of-registry access when
the pair is absent. -/
def get_in_cable (R : Registry) (dev itf idx : Nat) : Option (Option midi_vcable_t) :=
  match get_itf R (get_index R dev itf) with
  | none => none
  | some r =>
    if h : idx < r.io.cable_in.length then some (some (r.io.cable_in.get ⟨idx, h⟩))
    else some none

/-- `get_out_cable(dev_addr, itf_num, index)`. -/
def get_out_cable (R : Registry) (dev itf idx : Nat) : Option (Option midi_vcable_t) :=
  match get_itf R (get_index R dev itf) with
  | none => none
  | some r =>
    if h : idx < r.io.cable_out.length then some (some (r.io.cable_out.get ⟨idx, h⟩))
    else some none

/-- `tuh_midi_get_in_cable_id`: dereferences the pointer returned by
`get_in_cable` without a NULL check, so an out-of-range index is a NULL
dereference (`none`), not a sentinel return. -/
def tuh_midi_get_in_cable_id (R : Registry) (dev itf idx : Nat) : Option Nat :=
  match get_in_cable R dev itf idx with
  | some (some c) => some c.jack_id
  | _ => none

/-- `tuh_midi_get_out_cable_id`. -/
def tuh_midi_get_out_cable_id (R : Registry) (dev itf idx : Nat) : Option Nat :=
  match get_out_cable R dev itf idx with
  | some (some c) => some c.jack_id
  | _ => none

/-- `tuh_midi_get_in_cables(dev_addr, itf_num)`:
`TU_VERIFY(tuh_midi_spec_version(...) == USB_MIDI_SPEC_VERSION_1)`
returns `false` (= 0) on mismatch, then reads `cable_in_count`. -/
def tuh_midi_get_in_cables (R : Registry) (dev itf : Nat) : Option Nat :=
  match get_itf R (get_index R dev itf) with
  | none => none
  | some r =>
    if r.midi_spec = USB_MIDI_SPEC_VERSION_1 then some r.io.cable_in.length
    else some 0

/-- `tuh_midi_get_out_cables(dev_addr, itf_num)`. -/
def tuh_midi_get_out_cables (R : Registry) (dev itf : Nat) : Option Nat :=
  match get_itf R (get_index R dev itf) with
  | none => none
  | some r =>
    if r.midi_spec = USB_MIDI_SPEC_VERSION_1 then some r.io.cable_out.length
    else some 0

/-- `midih_set_config(dev_addr, itf_num)`: fires `tuh_midi_mount_cb`
with the looked-up index and signals configuration complete.  `p_midi`
is computed but never dereferenced and no record field is written (in
particular `mounted` is not set).  Result: (return value, registry,
mount-callback arguments fired). -/
def midih_set_config (R : Registry) (dev itf : Nat) : Bool × Registry × List Nat :=
  (true, R, [get_index R dev itf])

/-- The `for(i = 0; i < CFG_TUH_DEVICE_ITF_MAX; i++)` loop of
`midih_close`.  `get_itf(get_index(dev_addr, i))` is `&_midih_itf[-1]`
when the pair is absent — a non-NULL pointer, so the `if` guard does not
filter it and the subsequent `p_midi->mounted` read and `tu_memclr`
touch memory outside the registry (`none`).  Events collect the
`tuh_midi_umount_cb(dev_addr)` calls. -/
def close_loop (dev : Nat) : Registry → Nat → Nat → List Nat → Option (Registry × List Nat)
  | R, _, 0, events => some (R, events)
  | R, i, fuel + 1, events =>
    match get_itf R (get_index R dev i) with
    | none => none
    | some r =>
      close_loop dev (R.set (get_index R dev i - 1) freeItf) (i + 1) fuel
        (if r.mounted then events ++ [dev] else events)

/-- `midih_close(dev_addr)`: `TU_VERIFY(dev_addr <= CFG_TUH_DEVICE_MAX,)`
returns silently for an out-of-range address, otherwise the close loop
runs over interface numbers `0 .. CFG_TUH_DEVICE_ITF_MAX - 1`. -/
def midih_close (cfg : Cfg) (R : Registry) (dev : Nat) : Option (Registry × List Nat) :=
  if dev ≤ cfg.CFG_TUH_DEVICE_MAX then close_loop dev R 0 cfg.CFG_TUH_DEVICE_ITF_MAX []
  else some (R, [])

/-- The cable/endpoint binding invariant of the data model: every cable
entry's endpoint address is a member of the record's endpoint list for
the cable's direction. -/
def cableInv (r : midih_interface_t) : Prop :=
  (∀ c ∈ r.io.cable_in, c.endpoint_id ∈ r.ep_in) ∧
  (∀ c ∈ r.io.cable_out, c.endpoint_id ∈ r.ep_out)

instance : DecidablePred cableInv := by
  intro r
  unfold cableInv
  infer_instance

end CableDrv

/-!
## Stream-buffer variant (first copy of midi_host.c)

The copy of the driver whose per-interface V1 state binds one
`tu_edpt_stream_t` to each physical endpoint (`midih_io_v1_t` with
`midi_v1_ep_t ep_in, ep_out`), compiled with `CFG_TUH_MIDI_EP_MAX == 1`
(the single-endpoint-per-direction `#else` path; the `> 1` path of this
copy references fields that do not exist in its own structures and does
not compile).
-/

namespace StreamDrv

/-- `midi_v1_ep_t`: the embedded-jack IDs multiplexed onto one endpoint
(`jack_count` = list length; capacity `MIDIH_EP_JACK_MAX = 16`, the
unwritten tail of the array is zero-filled) plus the stream block bound
to the endpoint.  `stream` is the 1-based id of a `_stream_blk` pool
slot; `none` is the NULL pointer of a zero-filled record. -/
structure midi_v1_ep_t where
  jack_id : List Nat
  stream : Option Nat
deriving Repr, DecidableEq

/-- `midih_io_v1_t` with `CFG_TUH_MIDI_EP_MAX == 1`. -/
structure midih_io_v1_t where
  ep_in : midi_v1_ep_t
  ep_out : midi_v1_ep_t
deriving Repr, DecidableEq

/-- `midih_interface_t` of the stream variant (`CFG_TUH_MIDI_EP_MAX ==
1`): `ep_in` / `ep_out` are single endpoint addresses, 0 = unset. -/
structure midih_interface_t where
  dev_num : Nat
  itf_num : Nat
  midi_spec : Nat
  ep_in : Nat
  ep_out : Nat
  configured : Bool
  mounted : Bool
  io : midih_io_v1_t
deriving Repr, DecidableEq

/-- A zero-filled interface record. -/
def freeItf : midih_interface_t :=
  { dev_num := 0, itf_num := 0, midi_spec := 0, ep_in := 0, ep_out := 0
    configured := false, mounted := false
    io := { ep_in := { jack_id := [], stream := none }
            ep_out := { jack_id := [], stream := none } } }

/-- The registry `_midih_itf[CFG_TUH_MIDI]` of this variant. -/
abbrev Registry := List midih_interface_t

/-- The stream-block ownership pool `_buffer_owner[CFG_TUH_ENDPOINT_MAX]`
(0 = free slot); the list length is the pool capacity. -/
abbrev Owners := List Nat

/-- `get_itf(index)` of the stream variant: `&_midih_itf[index - 1]`,
unchecked; `none` models the access falling outside the registry. -/
def get_itf (R : Registry) (index : Nat) : Option midih_interface_t :=
  if h : 1 ≤ index ∧ index ≤ R.length then some (R.get ⟨index - 1, by omega⟩)
  else none

/-- `get_index(dev_addr, itf_num)` of the stream variant. -/
def get_index : Registry → Nat → Nat → Nat
  | [], _, _ => 0
  | r :: rs, dev, itf =>
    if r.dev_num = dev ∧ r.itf_num = itf then 1
    else match get_index rs dev itf with
      | 0 => 0
      | k + 1 => k + 2

/-- The scan loop of `make_new_itf` (identical to the cable variant's;
`spec_version` again never stored). -/
def make_new_itf_scan (dev itf : Nat) : Registry → Option (Registry × Nat)
  | [] => none
  | r :: rs =>
    if r.dev_num = 0 then some ({ r with dev_num := dev, itf_num := itf } :: rs, 1)
    else (make_new_itf_scan dev itf rs).map (fun p => (r :: p.1, p.2 + 1))

/-- `make_new_itf` of the stream variant. -/
def make_new_itf (R : Registry) (dev itf spec_version : Nat) : Option (Registry × Nat) :=
  if tuh_midi_spec_version_supported spec_version then make_new_itf_scan dev itf R
  else none

/-- `alloc_stream_blk(itf_index)`: claim the first free `_buffer_owner`
slot for the interface, returning its 1-based id, or 0 when the pool is
exhausted. -/
def alloc_stream_blk (owners : Owners) (itf_index : Nat) : Owners × Nat :=
  match owners with
  | [] => ([], 0)
  | o :: os =>
    if o = 0 then (itf_index :: os, 1)
    else
      let p := alloc_stream_blk os itf_index
      (o :: p.1, if p.2 = 0 then 0 else p.2 + 1)

/-- The endpoint loop of `config_process_spec_v1_interface` (stream
variant, `#else` path).  Per iteration: break once both directions are
bound; `TU_VERIFY` the block is an endpoint descriptor; classify the
direction; `continue` if that direction is already bound; otherwise bind
the address, allocate a stream block and store the stream pointer — the
`TUSB_DIR_OUT` case stores it into `io.v1.ep_in.stream` (as the source
does), and `tu_edpt_stream_init` writes through `get_stream_blk(0) =
&_stream_blk[-1]` when the pool was exhausted (`none`).  `desc` is never
advanced inside this loop. -/
def config_loop (cfg : Cfg) :
    Registry → Owners → Nat → Nat → List Desc → Option (Bool × Registry × Owners)
  | R, owners, _, 0, _ => some (true, R, owners)
  | R, owners, s, n + 1, chain =>
    match get_itf R s with
    | none => none
    | some r =>
      if r.ep_in ≠ 0 ∧ r.ep_out ≠ 0 then some (true, R, owners)
      else
        match chain with
        | [] => none
        | d :: rest =>
          match d with
          | Desc.endpoint addr =>
            if tu_edpt_dir addr = TUSB_DIR_IN then
              if r.ep_in ≠ 0 then config_loop cfg R owners s n (d :: rest)
              else
                let r2 := { r with ep_in := addr }
                let R2 := R.set (s - 1) r2
                let p := alloc_stream_blk owners (get_index R2 r2.dev_num r2.itf_num)
                if p.2 = 0 then none
                else
                  config_loop cfg
                    (R2.set (s - 1)
                      { r2 with io := { r2.io with
                                        ep_in := { r2.io.ep_in with stream := some p.2 } } })
                    p.1 s n (d :: rest)
            else
              if r.ep_out ≠ 0 then config_loop cfg R owners s n (d :: rest)
              else
                let r2 := { r with ep_out := addr }
                let R2 := R.set (s - 1) r2
                let p := alloc_stream_blk owners (get_index R2 r2.dev_num r2.itf_num)
                if p.2 = 0 then none
                else
                  config_loop cfg
                    (R2.set (s - 1)
                      { r2 with io := { r2.io with
                                        ep_in := { r2.io.ep_in with stream := some p.2 } } })
                    p.1 s n (d :: rest)
          | _ => some (false, R, owners)

/-- `config_process_spec_v1_interface` (stream variant): skip the
interface and class-specific header blocks, seek the first endpoint
descriptor, run the endpoint loop.  A NULL `itf` from `make_new_itf` is
dereferenced by the loop's first `itf->ep_in` read (`slot = 0` makes
`get_itf` fail, modelling it). -/
def config_process_spec_v1_interface (cfg : Cfg) (R : Registry) (owners : Owners)
    (slot numEps : Nat) (chain : List Desc) : Option (Bool × Registry × Owners) :=
  config_loop cfg R owners slot numEps (tu_desc_find (chain.drop 2) TUSB_DESC_ENDPOINT)

/-- The tail of the stream variant's `midih_open` after version
decoding; `0` encodes the NULL record pointer for the config stage when
`make_new_itf` fails. -/
def open_core (cfg : Cfg) (R : Registry) (owners : Owners) (dev itfNum numEps v : Nat)
    (chain2 : List Desc) : Option (Bool × Registry × Owners) :=
  if tuh_midi_spec_version_supported v then
    match make_new_itf R dev itfNum v with
    | some (R2, s) =>
      if v = USB_MIDI_SPEC_VERSION_1 then
        config_process_spec_v1_interface cfg R2 owners s numEps chain2
      else if v = USB_MIDI_SPEC_VERSION_2 then some (true, R2, owners)
      else some (false, R2, owners)
    | none =>
      if v = USB_MIDI_SPEC_VERSION_1 then
        config_process_spec_v1_interface cfg R owners 0 numEps chain2
      else if v = USB_MIDI_SPEC_VERSION_2 then some (true, R, owners)
      else some (false, R, owners)
  else some (false, R, owners)

/-- `midih_open` (stream variant); structurally identical to the cable
variant's up to the config stage. -/
def midih_open (cfg : Cfg) (R : Registry) (owners : Owners) (dev : Nat)
    (chain : List Desc) : Option (Bool × Registry × Owners) :=
  match chain with
  | Desc.interface _ _ cls sub :: _ =>
    if cls = TUSB_CLASS_AUDIO then
      match (if sub = AUDIO_SUBCLASS_CONTROL then
               tu_desc_find_itf chain TUSB_CLASS_AUDIO AUDIO_SUBCLASS_MIDI_STREAMING
             else chain) with
      | Desc.interface itfNum2 numEps2 cls2 sub2 :: rest2 =>
        if cls2 = TUSB_CLASS_AUDIO then
          if sub2 = AUDIO_SUBCLASS_MIDI_STREAMING then
            match rest2 with
            | Desc.csHeader bcd :: _ =>
              if bcd = 0x0100 then
                open_core cfg R owners dev itfNum2 numEps2 USB_MIDI_SPEC_VERSION_1
                  (Desc.interface itfNum2 numEps2 cls2 sub2 :: rest2)
              else if bcd = 0x0200 then
                open_core cfg R owners dev itfNum2 numEps2 USB_MIDI_SPEC_VERSION_2
                  (Desc.interface itfNum2 numEps2 cls2 sub2 :: rest2)
              else some (false, R, owners)
            | _ => none
          else some (false, R, owners)
        else some (false, R, owners)
      | _ => none
    else some (false, R, owners)
  | _ => none

/-- `tuh_midi_mounted(index)` (stream variant): reads
`get_itf(index)->mounted`, an unchecked slot access at `index - 1`. -/
def tuh_midi_mounted (R : Registry) (index : Nat) : Option Bool :=
  (get_itf R index).map (fun r => r.mounted)

/-- `tuh_midi_spec_version(index)` (stream variant). -/
def tuh_midi_spec_version (R : Registry) (index : Nat) : Option Nat :=
  (get_itf R index).map (fun r => r.midi_spec)

/-- `tuh_midi_get_in_endpoints(index)` (`CFG_TUH_MIDI_EP_MAX == 1`):
`get_itf(index)->ep_in ? 1 : 0`. -/
def tuh_midi_get_in_endpoints (R : Registry) (index : Nat) : Option Nat :=
  (get_itf R index).map (fun r => if r.ep_in ≠ 0 then 1 else 0)

/-- `tuh_midi_get_out_endpoints(index)` (`CFG_TUH_MIDI_EP_MAX == 1`). -/
def tuh_midi_get_out_endpoints (R : Registry) (index : Nat) : Option Nat :=
  (get_itf R index).map (fun r => if r.ep_out ≠ 0 then 1 else 0)

end StreamDrv

/-!
## Concrete fixtures

A small configuration and descriptor chains used to evaluate the model
at concrete inputs: `demoChain` declares one IN endpoint carrying one
embedded jack; `c8chain` is the two-endpoint scenario of the spec (one
IN with 2 embedded jacks, one OUT with 1 embedded jack).
-/

/-- `CFG_TUH_ENDPOINT_MAX = 2`, `CFG_TUH_MIDI_CABLES = 16`,
`CFG_TUH_DEVICE_ITF_MAX = 4`, `CFG_TUH_DEVICE_MAX = 8`. -/
def cfg0 : Cfg := ⟨2, 16, 4, 8⟩

/-- A minimal well-formed V1 MIDI-Streaming descriptor chain: one IN
endpoint (address 0x81) with one embedded jack (jack ID 5). -/
def demoChain : List Desc :=
  [Desc.interface 0 1 TUSB_CLASS_AUDIO AUDIO_SUBCLASS_MIDI_STREAMING,
   Desc.csHeader 0x0100, Desc.endpoint 0x81, Desc.csEndpoint [5]]

/-- The spec's scenario chain: header version BCD 0x0100, one IN
endpoint (0x81) with 2 embedded jacks, one OUT endpoint (0x01) with 1
embedded jack. -/
def c8chain : List Desc :=
  [Desc.interface 0 2 TUSB_CLASS_AUDIO AUDIO_SUBCLASS_MIDI_STREAMING,
   Desc.csHeader 0x0100, Desc.endpoint 0x81, Desc.csEndpoint [5, 6],
   Desc.endpoint 0x01, Desc.csEndpoint [7]]

/-- An empty one-slot registry (cable variant). -/
def R0 : CableDrv.Registry := [CableDrv.freeItf]

/-- The registry after a successful `midih_open` of `demoChain` for
device 1 (cable variant). -/
def R1 : CableDrv.Registry :=
  match CableDrv.midih_open cfg0 R0 1 demoChain with
  | some (_, R) => R
  | none => []

/-- The first record of `R1`. -/
def r1rec : CableDrv.midih_interface_t := R1.headD CableDrv.freeItf

/-- The registry after `midih_open` of `c8chain` for device 1 (cable
variant). -/
def R8 : CableDrv.Registry :=
  match CableDrv.midih_open cfg0 R0 1 c8chain with
  | some (_, R) => R
  | none => []

/-- A one-slot registry whose only slot is occupied (device 2): a full
registry with capacity K = 1. -/
def Rfull : CableDrv.Registry := [{ CableDrv.freeItf with dev_num := 2 }]

/-- An empty one-slot registry (stream variant). -/
def S0 : StreamDrv.Registry := [StreamDrv.freeItf]

/-- A three-slot stream-block pool, all free. -/
def owners0 : StreamDrv.Owners := [0, 0, 0]

/-- The stream variant's `midih_open` of the two-endpoint chain. -/
def c4run : Option (Bool × StreamDrv.Registry × StreamDrv.Owners) :=
  StreamDrv.midih_open cfg0 S0 owners0 1 c8chain

/-!
## General lemmas about the embedded operations
-/

/-- `get_itf` at the not-found sentinel 0 is an out-of-registry access. -/
theorem cable_get_itf_zero (R : CableDrv.Registry) : CableDrv.get_itf R 0 = none := by
  unfold CableDrv.get_itf
  rw [dif_neg]
  omega

/-- A record delivered by `get_itf` is a member of the registry. -/
theorem cable_get_itf_mem {R : CableDrv.Registry} {i : Nat}
    {r : CableDrv.midih_interface_t} (h : CableDrv.get_itf R i = some r) : r ∈ R := by
  unfold CableDrv.get_itf at h
  split at h
  · cases h
    exact List.get_mem R _ _
  · cases h

/-- The cable variant's `get_itf` is defined exactly on handles inside
`[1, CFG_TUH_MIDI]`. -/
theorem cable_get_itf_eq_none_iff (R : CableDrv.Registry) (h : Nat) :
    CableDrv.get_itf R h = none ↔ (h = 0 ∨ R.length < h) := by
  unfold CableDrv.get_itf
  split <;> rename_i hc <;> simp <;> omega

/-- The stream variant's `get_itf` is defined exactly on handles inside
`[1, CFG_TUH_MIDI]`. -/
theorem stream_get_itf_eq_none_iff (R : StreamDrv.Registry) (h : Nat) :
    StreamDrv.get_itf R h = none ↔ (h = 0 ∨ R.length < h) := by
  unfold StreamDrv.get_itf
  split <;> rename_i hc <;> simp <;> omega

/-- `get_index` misses every interface number of a device that owns no
record. -/
theorem get_index_eq_zero_of_absent {dev : Nat} :
    ∀ {R : CableDrv.Registry} {itf : Nat}, (∀ r ∈ R, r.dev_num ≠ dev) →
      CableDrv.get_index R dev itf = 0 := by
  intro R
  induction R with
  | nil =>
    intro itf _
    rfl
  | cons r rs ih =>
    intro itf h
    have hne : ¬(r.dev_num = dev ∧ r.itf_num = itf) :=
      fun hc => h r (List.mem_cons_self _ _) hc.1
    rw [CableDrv.get_index, if_neg hne, ih (fun x hx => h x (List.mem_cons_of_mem _ hx))]

/-- A registry with no free slot makes the `make_new_itf` scan fail. -/
theorem make_new_itf_scan_none_of_full {dev itf : Nat} :
    ∀ {R : CableDrv.Registry}, (∀ r ∈ R, r.dev_num ≠ 0) →
      CableDrv.make_new_itf_scan dev itf R = none := by
  intro R
  induction R with
  | nil =>
    intro _
    rfl
  | cons r rs ih =>
    intro h
    rw [CableDrv.make_new_itf_scan, if_neg (h r (List.mem_cons_self _ _)),
      ih (fun x hx => h x (List.mem_cons_of_mem _ hx))]
    rfl

/-- Cables appended by the embedded-jack loop all carry the endpoint
address being processed. -/
theorem mem_push_cables {cap addr : Nat} {js : List Nat}
    {cs : List CableDrv.midi_vcable_t} {c : CableDrv.midi_vcable_t}
    (h : c ∈ CableDrv.push_cables cap addr cs js) : c ∈ cs ∨ c.endpoint_id = addr := by
  induction js generalizing cs with
  | nil => exact Or.inl h
  | cons j js ih =>
    rw [CableDrv.push_cables] at h
    rcases ih h with h2 | h2
    · split at h2
      · rcases List.mem_append.mp h2 with h3 | h3
        · exact Or.inl h3
        · right
          rw [List.mem_singleton] at h3
          subst h3
          rfl
      · exact Or.inl h2
    · exact Or.inr h2

/-- Processing one endpoint descriptor preserves the cable/endpoint
binding invariant of a record. -/
theorem cableInv_process_endpoint {cfg : Cfg} {r : CableDrv.midih_interface_t}
    {addr : Nat} {jacks : List Nat} (h : CableDrv.cableInv r) :
    CableDrv.cableInv (CableDrv.process_endpoint cfg r addr jacks) := by
  unfold CableDrv.process_endpoint
  split
  · split
    · refine ⟨fun c hc => ?_, fun c hc => h.2 c hc⟩
      rcases mem_push_cables hc with h2 | h2
      · exact List.mem_append_left _ (h.1 c h2)
      · rw [h2]
        exact List.mem_append_right _ (List.mem_singleton.mpr rfl)
    · exact h
  · split
    · refine ⟨fun c hc => h.1 c hc, fun c hc => ?_⟩
      rcases mem_push_cables hc with h2 | h2
      · exact List.mem_append_left _ (h.2 c h2)
      · rw [h2]
        exact List.mem_append_right _ (List.mem_singleton.mpr rfl)
    · exact h

/-- The endpoint loop of the cable variant's enumerator preserves the
binding invariant across the registry, on every defined outcome. -/
theorem config_loop_inv {cfg : Cfg} :
    ∀ {n : Nat} {chain : List Desc} {R : CableDrv.Registry} {slot : Option Nat}
      {b : Bool} {R2 : CableDrv.Registry},
      CableDrv.config_loop cfg R slot n chain = some (b, R2) →
      (∀ r ∈ R, CableDrv.cableInv r) → ∀ r ∈ R2, CableDrv.cableInv r := by
  intro n
  induction n with
  | zero =>
    intro chain R slot b R2 h hR
    rw [CableDrv.config_loop] at h
    cases h
    exact hR
  | succ n ih =>
    intro chain R slot b R2 h hR
    cases chain with
    | nil => simp [CableDrv.config_loop] at h
    | cons d rest =>
      cases d with
      | interface a1 a2 a3 a4 =>
        simp only [CableDrv.config_loop, Option.some.injEq, Prod.mk.injEq] at h
        rw [← h.2]
        exact hR
      | csHeader a1 =>
        simp only [CableDrv.config_loop, Option.some.injEq, Prod.mk.injEq] at h
        rw [← h.2]
        exact hR
      | csEndpoint a1 =>
        simp only [CableDrv.config_loop, Option.some.injEq, Prod.mk.injEq] at h
        rw [← h.2]
        exact hR
      | endpoint addr =>
        cases slot with
        | none => simp [CableDrv.config_loop] at h
        | some s =>
          cases rest with
          | nil => simp [CableDrv.config_loop] at h
          | cons d2 rest2 =>
            cases d2 with
            | csEndpoint jacks =>
              rcases hg : CableDrv.get_itf R s with _ | r
              · rw [CableDrv.config_loop, hg] at h
                cases h
              · rw [CableDrv.config_loop, hg] at h
                refine ih h ?_
                intro x hx
                rcases List.mem_or_eq_of_mem_set hx with h2 | h2
                · exact hR x h2
                · rw [h2]
                  exact cableInv_process_endpoint (hR r (cable_get_itf_mem hg))
            | interface a1 a2 a3 a4 => simp [CableDrv.config_loop] at h
            | csHeader a1 => simp [CableDrv.config_loop] at h
            | endpoint a1 => simp [CableDrv.config_loop] at h

/-- The `make_new_itf` scan preserves the binding invariant: it only
writes identity fields of a free slot. -/
theorem make_new_itf_scan_inv {dev itf : Nat} :
    ∀ {R R2 : CableDrv.Registry} {s : Nat},
      CableDrv.make_new_itf_scan dev itf R = some (R2, s) →
      (∀ r ∈ R, CableDrv.cableInv r) → ∀ r ∈ R2, CableDrv.cableInv r := by
  intro R
  induction R with
  | nil =>
    intro R2 s h _
    simp [CableDrv.make_new_itf_scan] at h
  | cons r rs ih =>
    intro R2 s h hR
    rw [CableDrv.make_new_itf_scan] at h
    split at h
    · cases h
      intro x hx
      rcases List.mem_cons.mp hx with h2 | h2
      · rw [h2]
        have hr := hR r (List.mem_cons_self _ _)
        exact ⟨hr.1, hr.2⟩
      · exact hR x (List.mem_cons_of_mem _ h2)
    · rcases hm : CableDrv.make_new_itf_scan dev itf rs with _ | ⟨rs2, k⟩
      · rw [hm] at h
        cases h
      · rw [hm] at h
        simp only [Option.map_some', Option.some.injEq, Prod.mk.injEq] at h
        obtain ⟨h1, h2⟩ := h
        rw [← h1]
        intro x hx
        rcases List.mem_cons.mp hx with h2 | h2
        · rw [h2]
          exact hR r (List.mem_cons_self _ _)
        · exact ih hm (fun y hy => hR y (List.mem_cons_of_mem _ hy)) x h2

/-- `make_new_itf` preserves the binding invariant. -/
theorem make_new_itf_inv {R R2 : CableDrv.Registry} {dev itf v s : Nat}
    (h : CableDrv.make_new_itf R dev itf v = some (R2, s))
    (hR : ∀ r ∈ R, CableDrv.cableInv r) : ∀ r ∈ R2, CableDrv.cableInv r := by
  unfold CableDrv.make_new_itf at h
  split at h
  · exact make_new_itf_scan_inv h hR
  · cases h

/-- The post-version-decode tail of `midih_open` preserves the binding
invariant. -/
theorem open_core_inv {cfg : Cfg} {R : CableDrv.Registry} {dev itfNum numEps v : Nat}
    {chain2 : List Desc} {b : Bool} {R2 : CableDrv.Registry}
    (h : CableDrv.open_core cfg R dev itfNum numEps v chain2 = some (b, R2))
    (hR : ∀ r ∈ R, CableDrv.cableInv r) : ∀ r ∈ R2, CableDrv.cableInv r := by
  unfold CableDrv.open_core at h
  split at h
  · rcases hm : CableDrv.make_new_itf R dev itfNum v with _ | ⟨R3, s⟩
    · simp only [hm] at h
      split at h
      · unfold CableDrv.config_process_spec_v1_interface at h
        exact config_loop_inv h hR
      · split at h <;> cases h <;> exact hR
    · simp only [hm] at h
      have hp : ∀ r ∈ R3, CableDrv.cableInv r := make_new_itf_inv hm hR
      split at h
      · unfold CableDrv.config_process_spec_v1_interface at h
        exact config_loop_inv h hp
      · split at h <;> cases h <;> exact hp
  · cases h
    exact hR

/-!
## Claim theorems
-/

/-- Claim C1 (counter-evidence): for a freshly opened interface of
device 1, `midih_set_config` fires the mount callback for handle 1 and
leaves the registry unchanged — in particular it never sets `mounted` —
so `tuh_midi_mounted` still returns false after the mount callback has
fired, contradicting the claim (and `midi_host.h`'s documentation of
`tuh_midi_mounted`). -/
theorem set_config_fires_mount_but_mounted_stays_false :
    CableDrv.midih_open cfg0 R0 1 demoChain = some (true, R1) ∧
    CableDrv.midih_set_config R1 1 0 = (true, R1, [1]) ∧
    CableDrv.tuh_midi_mounted R1 1 0 = some false := by
  decide

/-- Claim C2 (counter-evidence): with every registry slot occupied, a
further `midih_open` with a valid, supported V1 MIDI-Streaming
descriptor does not return failure: `make_new_itf` returns NULL, which
`midih_open` passes unchecked into `config_process_spec_v1_interface`,
where the first endpoint iteration dereferences it
(`TU_ASSERT(tuh_edpt_open(itf->dev_num, ep))`) — undefined behaviour,
modelled as `none`. -/
theorem open_on_full_registry_is_null_deref (R : CableDrv.Registry) (dev : Nat)
    (hfull : ∀ r ∈ R, r.dev_num ≠ 0) :
    CableDrv.midih_open cfg0 R dev demoChain = none := by
  have hscan : CableDrv.make_new_itf_scan dev 0 R = none :=
    make_new_itf_scan_none_of_full hfull
  have hopen : CableDrv.midih_open cfg0 R dev demoChain
      = CableDrv.open_core cfg0 R dev 0 1 USB_MIDI_SPEC_VERSION_1 demoChain := rfl
  rw [hopen]
  unfold CableDrv.open_core CableDrv.make_new_itf
  rw [hscan]
  rfl

/-- Witness for C2's theorem at a concrete full registry of capacity
K = 1. -/
theorem open_on_full_registry_is_null_deref_witness :
    CableDrv.midih_open cfg0 Rfull 1 demoChain = none :=
  open_on_full_registry_is_null_deref Rfull 1 (by decide)

/-- Claim C3 (counter-evidence): after a successful open of a descriptor
whose class-specific header declares BCD version 0x0100, the
spec-version query returns 0 — neither `USB_MIDI_SPEC_VERSION_1` nor
`USB_MIDI_SPEC_VERSION_2` — because `make_new_itf` never stores its
`spec_version` argument into the record's `midi_spec` field. -/
theorem spec_version_after_open_is_zero :
    CableDrv.midih_open cfg0 R0 1 demoChain = some (true, R1) ∧
    CableDrv.tuh_midi_spec_version R1 1 0 = some 0 ∧
    (0 : Nat) ≠ USB_MIDI_SPEC_VERSION_1 ∧ (0 : Nat) ≠ USB_MIDI_SPEC_VERSION_2 := by
  decide

/-- Claim C4 (counter-evidence): in the stream variant, opening a V1
interface declaring one IN and one OUT endpoint reports success, yet
the OUT endpoint is never bound (`ep_out = 0`) and its stream handle is
NULL (`io.ep_out.stream = none`) while the IN endpoint got stream block
1: the loop never advances `desc` past the first endpoint descriptor,
and its `TUSB_DIR_OUT` arm stores the allocated stream into
`io.v1.ep_in.stream` anyway. -/
theorem stream_open_leaves_out_endpoint_unbound :
    (c4run.map (fun x => x.1)) = some true ∧
    (c4run.map (fun x => x.2.1.map
        (fun r => (r.ep_in, r.ep_out, r.io.ep_in.stream, r.io.ep_out.stream))))
      = some [(0x81, 0, some 1, none)] := by
  decide

/-- Claim C5 (counter-evidence): a cable-ID query with an index at or
past the registered cable count is not a sentinel return: `get_in_cable`
yields NULL (`TU_VERIFY(index < cable_in_count)`), and
`tuh_midi_get_in_cable_id` dereferences it unchecked (`->jack_id`) —
undefined behaviour, modelled as `none`. -/
theorem cable_id_out_of_range_is_null_deref (R : CableDrv.Registry)
    (dev itf idx : Nat) (r : CableDrv.midih_interface_t)
    (hr : CableDrv.get_itf R (CableDrv.get_index R dev itf) = some r)
    (hidx : r.io.cable_in.length ≤ idx) :
    CableDrv.tuh_midi_get_in_cable_id R dev itf idx = none := by
  unfold CableDrv.tuh_midi_get_in_cable_id CableDrv.get_in_cable
  simp only [hr]
  rw [dif_neg (by omega)]

/-- Witness for C5's theorem: the opened interface of `R1` has one IN
cable; querying index 2 hits the NULL dereference. -/
theorem cable_id_out_of_range_is_null_deref_witness :
    CableDrv.tuh_midi_get_in_cable_id R1 1 0 2 = none :=
  cable_id_out_of_range_is_null_deref R1 1 0 2 r1rec (by decide) (by decide)

/-- Claim C6 (counter-evidence): `midih_close` on a device address that
owns no interface record is not a no-op: for each probed interface
number, `get_index` returns 0 and `get_itf(0)` is `&_midih_itf[-1]`, a
non-NULL pointer outside the registry which the close loop then reads
and clears — undefined behaviour, modelled as `none`. -/
theorem close_on_absent_device_out_of_bounds (cfg : Cfg) (R : CableDrv.Registry)
    (dev : Nat) (hitf : 1 ≤ cfg.CFG_TUH_DEVICE_ITF_MAX)
    (hdev : dev ≤ cfg.CFG_TUH_DEVICE_MAX)
    (habs : ∀ r ∈ R, r.dev_num ≠ dev) :
    CableDrv.midih_close cfg R dev = none := by
  obtain ⟨f, hf⟩ : ∃ f, cfg.CFG_TUH_DEVICE_ITF_MAX = f + 1 :=
    ⟨cfg.CFG_TUH_DEVICE_ITF_MAX - 1, by omega⟩
  unfold CableDrv.midih_close
  rw [if_pos hdev, hf]
  rw [CableDrv.close_loop]
  rw [get_index_eq_zero_of_absent habs, cable_get_itf_zero]

/-- Witness for C6's theorem: closing device 3 on an empty one-slot
registry. -/
theorem close_on_absent_device_out_of_bounds_witness :
    CableDrv.midih_close cfg0 R0 3 = none :=
  close_on_absent_device_out_of_bounds cfg0 R0 3 (by decide) (by decide) (by decide)

/-- Claim C7: every defined outcome of `midih_open` preserves the
binding invariant — each registered cable entry's endpoint address is a
member of its record's endpoint list for the cable's direction — across
every record of the registry. -/
theorem open_preserves_cable_endpoint_binding (cfg : Cfg) (R : CableDrv.Registry)
    (dev : Nat) (chain : List Desc) (b : Bool) (R2 : CableDrv.Registry)
    (hR : ∀ r ∈ R, CableDrv.cableInv r)
    (h : CableDrv.midih_open cfg R dev chain = some (b, R2)) :
    ∀ r ∈ R2, CableDrv.cableInv r := by
  unfold CableDrv.midih_open at h
  split at h
  · split at h
    · split at h
      · split at h
        · split at h
          · split at h
            · split at h
              · exact open_core_inv h hR
              · split at h
                · exact open_core_inv h hR
                · cases h
                  exact hR
            · cases h
          · cases h
            exact hR
        · cases h
          exact hR
      · cases h
    · cases h
      exact hR
  · cases h

/-- Witness for C7's theorem: the record enumerated from `demoChain`
satisfies the binding invariant. -/
theorem open_preserves_cable_endpoint_binding_witness :
    CableDrv.cableInv r1rec :=
  open_preserves_cable_endpoint_binding cfg0 R0 1 demoChain true R1 (by decide)
    (by decide) r1rec (by decide)

/-- Claim C8 (counter-evidence): on the spec's two-endpoint scenario
(one IN endpoint with 2 embedded jacks, one OUT with 1), `midih_open`
returns failure — the loop never advances past the first class-specific
endpoint block, so the second iteration's descriptor-type check fails —
leaving a partial record with the OUT endpoint missing, and both cable
count queries return 0 because the record's `midi_spec` is 0. -/
theorem two_endpoint_scenario_open_fails :
    CableDrv.midih_open cfg0 R0 1 c8chain = some (false, R8) ∧
    CableDrv.tuh_midi_get_in_cables R8 1 0 = some 0 ∧
    CableDrv.tuh_midi_get_out_cables R8 1 0 = some 0 ∧
    R8.map (fun r => (r.ep_in, r.ep_out, r.io.cable_in.length, r.io.cable_out.length))
      = [([0x81], [], 2, 0)] := by
  decide

/-- Claim C9 (counter-evidence): after a successful open, `get_index`
does return the non-zero handle 1 resolving to the allocated record, but
`midih_close` for that device is undefined behaviour (`none`), not a
transition to a state where lookup returns 0: the close loop probes
every interface number up to `CFG_TUH_DEVICE_ITF_MAX` and dereferences
`&_midih_itf[-1]` for each number without a record. -/
theorem lookup_stable_until_close_but_close_crashes :
    CableDrv.midih_open cfg0 R0 1 demoChain = some (true, R1) ∧
    CableDrv.get_index R1 1 0 = 1 ∧
    CableDrv.get_itf R1 (CableDrv.get_index R1 1 0) = some r1rec ∧
    CableDrv.midih_close cfg0 R1 1 = none := by
  decide

/-- Claim C10: the public handle-taking queries resolve their handle as
an unchecked access at slot `handle - 1`: they are undefined (out of
the registry array) exactly for handle 0 or a handle above the capacity,
and for an in-range handle `get_itf` is the plain array read at
`handle - 1`; so handle validity is an unchecked precondition, not a
rejected input. -/
theorem handle_queries_are_unchecked_slot_access (R : StreamDrv.Registry)
    (Rc : CableDrv.Registry) (h : Nat) :
    (StreamDrv.tuh_midi_mounted R h = none ↔ (h = 0 ∨ R.length < h)) ∧
    (StreamDrv.tuh_midi_spec_version R h = none ↔ (h = 0 ∨ R.length < h)) ∧
    (StreamDrv.tuh_midi_get_in_endpoints R h = none ↔ (h = 0 ∨ R.length < h)) ∧
    (CableDrv.get_itf Rc h = none ↔ (h = 0 ∨ Rc.length < h)) ∧
    ((h = 0 ∧ StreamDrv.get_itf R h = none) ∨ StreamDrv.get_itf R h = R.get? (h - 1)) := by
  refine ⟨?_, ?_, ?_, cable_get_itf_eq_none_iff Rc h, ?_⟩
  · unfold StreamDrv.tuh_midi_mounted
    rw [Option.map_eq_none']
    exact stream_get_itf_eq_none_iff R h
  · unfold StreamDrv.tuh_midi_spec_version
    rw [Option.map_eq_none']
    exact stream_get_itf_eq_none_iff R h
  · unfold StreamDrv.tuh_midi_get_in_endpoints
    rw [Option.map_eq_none']
    exact stream_get_itf_eq_none_iff R h
  · rcases Nat.eq_zero_or_pos h with h0 | hpos
    · refine Or.inl ⟨h0, ?_⟩
      rw [stream_get_itf_eq_none_iff]
      exact Or.inl h0
    · right
      unfold StreamDrv.get_itf
      split <;> rename_i hc
      · rw [List.get?_eq_get (show h - 1 < R.length by omega)]
      · rw [eq_comm, List.get?_eq_none]
        omega

end MidiHost
